import Mathlib

/-!
Shallow embedding of `src/science.py` (`reduce_science_frame`).

Pixel values (numpy float32) are modelled as exact rationals; a 2D numpy
array is a list of rows.  The numpy in-place elementwise operators
(`sci -= bias`, `sci -= dark`, `sci /= flat`) are modelled with numpy's
broadcasting rule for writing the result back into the left operand: the
right operand's shape must be broadcastable into the left operand's shape
(each source dimension equal to the target dimension or equal to 1),
otherwise a ValueError is raised.  A FITS header is an ordered list of
(key, value, comment) cards; astropy's `header[key] = (value, comment)`
updates the first existing card with that key in place and appends a new
card otherwise (commentary keys such as COMMENT always append).  The
cosmic-ray detector (`astroscrappy.detect_cosmics`) is an external
collaborator and is a parameter of the pipeline: a function from an image
to a boolean mask and a cleaned image.  File writing is modelled by
returning the written HDU list; the pipeline also returns the ordered list
of completed pipeline events, mirroring line-by-line execution order of the
source.
-/

namespace CCD

/-- A 2D image: rows of rational pixel values (models a float32 2D array). -/
abbrev Img : Type := List (List ℚ)

/-- numpy-style shape of a 2D array: (number of rows, length of the first row). -/
def shape {α : Type} (A : List (List α)) : ℕ × ℕ :=
  (A.length, (A.headD []).length)

/-- Rectangularity: every row has the length of the first row. -/
def rect {α : Type} (A : List (List α)) : Bool :=
  A.all (fun row => row.length == (A.headD []).length)

/-- Pixel access, with default 0 outside the grid. -/
def getPix (A : Img) (i j : ℕ) : ℚ :=
  (A.getD i []).getD j 0

/-- Broadcast index: an axis of extent 1 repeats its single entry. -/
def bidx (n i : ℕ) : ℕ :=
  if n = 1 then 0 else i

/-- numpy broadcastability of a source shape `s` into a fixed target shape `t`
(the output of an in-place ufunc must keep the target's shape). -/
def bcastInto (t s : ℕ × ℕ) : Bool :=
  (s.1 == t.1 || s.1 == 1) && (s.2 == t.2 || s.2 == 1)

/-- The pixel grid produced by an in-place elementwise binary ufunc on `A`
with `B` broadcast into `A`'s shape. -/
def ewise (f : ℚ → ℚ → ℚ) (A B : Img) : Img :=
  (List.range (shape A).1).map (fun i =>
    (List.range (shape A).2).map (fun j =>
      f (getPix A i j) (getPix B (bidx (shape B).1 i) (bidx (shape B).2 j))))

/-- Python-level failures the pipeline can raise. -/
inductive PyErr
  | keyError
  | valueError
  | typeError
deriving DecidableEq

deriving instance DecidableEq for Except

/-- In-place elementwise binary operator (`sci -= bias`, `sci /= flat`):
broadcasts `B` into `A`'s shape, or raises ValueError when the shapes are
not broadcast-compatible. -/
def inplaceBinop (f : ℚ → ℚ → ℚ) (A B : Img) : Except PyErr Img :=
  if bcastInto (shape A) (shape B) then .ok (ewise f A B) else .error .valueError

/-- `dark *= exptime`: elementwise multiplication by a scalar. -/
def scalarMul (A : Img) (t : ℚ) : Img :=
  A.map (fun row => row.map (fun x => x * t))

/-- A FITS header card value: number or string. -/
inductive HVal
  | num (q : ℚ)
  | str (s : String)
deriving DecidableEq

/-- A FITS header card: key, value, optional comment. -/
structure Card where
  key : String
  val : HVal
  comment : Option String
deriving DecidableEq

/-- A FITS header: an ordered list of cards. -/
abbrev Header : Type := List Card

/-- First card with the given key, if any. -/
def findCard (h : Header) (k : String) : Option Card :=
  h.find? (fun c => c.key == k)

/-- Whether any card has the given key. -/
def hasKey (h : Header) (k : String) : Bool :=
  h.any (fun c => c.key == k)

/-- `sciHeader['EXPTIME']` as used on line 51: a missing key raises KeyError;
a non-numeric value makes the subsequent `dark *= ...` raise a type error. -/
def getExptime (h : Header) : Except PyErr ℚ :=
  match findCard h "EXPTIME" with
  | none => .error .keyError
  | some c =>
    match c.val with
    | .num q => .ok q
    | .str _ => .error .typeError

/-- Commentary keys, for which astropy item assignment always appends. -/
def isCommentary (k : String) : Bool :=
  k == "COMMENT" || k == "HISTORY"

/-- Replace the first card whose key is `k` (value and comment). -/
def setFirst (k : String) (v : HVal) (c : Option String) : Header → Header
  | [] => []
  | card :: rest =>
    if card.key == k then ⟨k, v, c⟩ :: rest else card :: setFirst k v c rest

/-- astropy `header[k] = (v, c)`: commentary keys and fresh keys append a
card at the end; an existing key has its first card updated in place. -/
def headerSet (h : Header) (k : String) (v : HVal) (c : Option String) : Header :=
  if isCommentary k || !hasKey h k then h ++ [⟨k, v, c⟩] else setFirst k v c h

/-- `bool.astype('uint8')`. -/
def boolToUint8 (b : Bool) : ℕ :=
  if b then 1 else 0

/-- One header/data unit of the written FITS file. -/
inductive HDU
  | primary (data : Img) (hdr : Header)
  | ext (name : String) (data : List (List ℕ))
deriving DecidableEq

/-- Pipeline events, in source execution order: `sci -= bias` (line 49),
`sciHeader['EXPTIME']` (line 51), `dark *= exptime` (line 51),
`sci -= dark` (line 52), `sci /= flat` (line 54), `detect_cosmics`
(line 57), `hdul.writeto` (line 66). -/
inductive Ev
  | biasSub
  | exptimeRead
  | darkScaled
  | darkSub
  | flatDiv
  | cosmics
  | write
deriving DecidableEq

/-- The complete event trace of a successful run. -/
def fullEvents : List Ev :=
  [.biasSub, .exptimeRead, .darkScaled, .darkSub, .flatDiv, .cosmics, .write]

/-- Result of a successful run: the corrected image before cosmic-ray
masking (the value of `sci` after line 54), the boolean cosmic-ray mask,
the returned cleaned image `reduced_science`, and the HDU list written to
`reduced_science_filename`. -/
structure ReduceResult where
  premask : Img
  mask : List (List Bool)
  retVal : Img
  written : List HDU
deriving DecidableEq

/-- The provenance-annotated output header built on lines 59 to 63. -/
def outHeader (sciHeader : Header)
    (median_bias_filename median_flat_filename median_dark_filename : String) : Header :=
  headerSet
    (headerSet
      (headerSet
        (headerSet sciHeader "COMMENT" (.str "Reduced science image") none)
        "BIASFILE" (.str median_bias_filename) (some "Bias image used to subtract bias level"))
      "DARKFILE" (.str median_dark_filename) (some "Dark image used to subtract dark current"))
    "FLATFILE" (.str median_flat_filename) (some "Flat image used for FPN correction")

/-- `reduce_science_frame` from `src/science.py`, with file I/O factored
out: the four images and the science header stand for the data read by
`fits.getdata` / `fits.getheader`, `detect` is the external cosmic-ray
detector, and the written file is returned instead of persisted.  The
first component of the result is the trace of completed pipeline events. -/
def reduce_science_frame
    (detect : Img → List (List Bool) × Img)
    (science_filename median_bias_filename median_flat_filename
      median_dark_filename reduced_science_filename : String)
    (sci bias flat dark : Img) (sciHeader : Header) :
    List Ev × Except PyErr ReduceResult :=
  match inplaceBinop (fun x y => x - y) sci bias with
  | .error e => ([], .error e)
  | .ok sci1 =>
    match getExptime sciHeader with
    | .error e => ([.biasSub], .error e)
    | .ok t =>
      match inplaceBinop (fun x y => x - y) sci1 (scalarMul dark t) with
      | .error e => ([.biasSub, .exptimeRead, .darkScaled], .error e)
      | .ok sci2 =>
        match inplaceBinop (fun x y => x / y) sci2 flat with
        | .error e => ([.biasSub, .exptimeRead, .darkScaled, .darkSub], .error e)
        | .ok sci3 =>
          let md := detect sci3
          (fullEvents, .ok
            { premask := sci3
              mask := md.1
              retVal := md.2
              written :=
                [HDU.primary md.2
                  (outHeader sciHeader median_bias_filename median_flat_filename
                    median_dark_filename),
                 HDU.ext "COSMICRAY_MASK" (md.1.map (List.map boolToUint8))] })

/-- A cosmic-ray detector that flags nothing and changes nothing; with it
the returned image is exactly the corrected-but-unmasked image. -/
def idDetector (A : Img) : List (List Bool) × Img :=
  (A.map (List.map (fun _ => false)), A)

/-- An all-zero image. -/
def zeroImg (r c : ℕ) : Img :=
  List.replicate r (List.replicate c 0)

/-- An all-one image. -/
def onesImg (r c : ℕ) : Img :=
  List.replicate r (List.replicate c 1)

/-- The corrected-but-unmasked image: the value of `sci` after line 54,
built from the three in-place elementwise steps in source order. -/
def premaskImg (sci bias flat dark : Img) (t : ℚ) : Img :=
  ewise (fun x y => x / y)
    (ewise (fun x y => x - y) (ewise (fun x y => x - y) sci bias) (scalarMul dark t))
    flat

/-- Whether a pipeline outcome is a success. -/
def exOk (e : Except PyErr ReduceResult) : Bool :=
  match e with
  | .ok _ => true
  | .error _ => false

/-- Primary header of a successful outcome (dummy value otherwise). -/
def primaryHeaderOf (e : Except PyErr ReduceResult) : Header :=
  match e with
  | .ok r =>
    match r.written with
    | HDU.primary _ hd :: _ => hd
    | _ => []
  | .error _ => []

theorem shape_ewise (f : ℚ → ℚ → ℚ) (A B : Img) : shape (ewise f A B) = shape A := by
  rcases A with _ | ⟨r, rest⟩
  · simp [ewise, shape]
  · simp [ewise, shape, List.range_succ_eq_map]

theorem shape_scalarMul (A : Img) (t : ℚ) : shape (scalarMul A t) = shape A := by
  rcases A with _ | ⟨r, rest⟩ <;> simp [scalarMul, shape]

theorem getD_map_range {α : Type} (g : ℕ → α) (d : α) {n i : ℕ} (hi : i < n) :
    ((List.range n).map g).getD i d = g i := by
  rw [List.getD_eq_getElem?_getD, List.getElem?_map, List.getElem?_range hi]
  rfl

theorem getD_map {α β : Type} (f : α → β) (l : List α) (i : ℕ) (d : β) :
    (l.map f).getD i d = (l[i]?.map f).getD d := by
  rw [List.getD_eq_getElem?_getD, List.getElem?_map]

theorem getPix_ewise (f : ℚ → ℚ → ℚ) (A B : Img) (i j : ℕ)
    (hi : i < (shape A).1) (hj : j < (shape A).2) :
    getPix (ewise f A B) i j =
      f (getPix A i j) (getPix B (bidx (shape B).1 i) (bidx (shape B).2 j)) := by
  have h0 : getPix (ewise f A B) i j
      = (((List.range (shape A).1).map (fun i =>
            (List.range (shape A).2).map (fun j =>
              f (getPix A i j) (getPix B (bidx (shape B).1 i) (bidx (shape B).2 j))))).getD
          i []).getD j 0 := rfl
  rw [h0, getD_map_range _ _ hi, getD_map_range _ _ hj]

theorem getPix_ewise_eq (f : ℚ → ℚ → ℚ) (A B : Img) (hB : shape B = shape A)
    (i j : ℕ) (hi : i < (shape A).1) (hj : j < (shape A).2) :
    getPix (ewise f A B) i j = f (getPix A i j) (getPix B i j) := by
  rw [getPix_ewise f A B i j hi hj]
  have h1 : bidx (shape B).1 i = i := by
    unfold bidx
    rw [hB]
    split
    · omega
    · rfl
  have h2 : bidx (shape B).2 j = j := by
    unfold bidx
    rw [hB]
    split
    · omega
    · rfl
  rw [h1, h2]

theorem getPix_scalarMul (A : Img) (t : ℚ) (i j : ℕ) :
    getPix (scalarMul A t) i j = getPix A i j * t := by
  simp only [getPix, scalarMul]
  rw [getD_map]
  cases hA : A[i]? with
  | none =>
    simp [List.getD_eq_getElem?_getD, hA, List.getD]
  | some row =>
    simp only [Option.map_some', Option.getD_some]
    rw [getD_map, List.getD_eq_getElem?_getD A, hA]
    simp only [Option.getD_some]
    cases hrow : row[j]? with
    | none => simp [List.getD_eq_getElem?_getD, hrow, List.getD]
    | some x => simp [List.getD_eq_getElem?_getD, hrow]

theorem bcastInto_of_eq {A B : Img} (h : shape B = shape A) :
    bcastInto (shape A) (shape B) = true := by
  rw [h]
  simp [bcastInto]

theorem inplaceBinop_ok {f : ℚ → ℚ → ℚ} {A B : Img}
    (h : bcastInto (shape A) (shape B) = true) :
    inplaceBinop f A B = .ok (ewise f A B) := by
  simp [inplaceBinop, h]

theorem inplaceBinop_err {f : ℚ → ℚ → ℚ} {A B : Img}
    (h : bcastInto (shape A) (shape B) = false) :
    inplaceBinop f A B = .error .valueError := by
  simp [inplaceBinop, h]

theorem reduce_ok_char (detect : Img → List (List Bool) × Img)
    (f1 f2 f3 f4 f5 : String) (sci bias flat dark : Img) (h : Header) (t : ℚ)
    (hb : bcastInto (shape sci) (shape bias) = true)
    (ht : getExptime h = .ok t)
    (hd : bcastInto (shape sci) (shape dark) = true)
    (hf : bcastInto (shape sci) (shape flat) = true) :
    reduce_science_frame detect f1 f2 f3 f4 f5 sci bias flat dark h =
      (fullEvents, .ok
        { premask := premaskImg sci bias flat dark t
          mask := (detect (premaskImg sci bias flat dark t)).1
          retVal := (detect (premaskImg sci bias flat dark t)).2
          written :=
            [HDU.primary (detect (premaskImg sci bias flat dark t)).2 (outHeader h f2 f3 f4),
             HDU.ext "COSMICRAY_MASK"
               ((detect (premaskImg sci bias flat dark t)).1.map (List.map boolToUint8))] }) := by
  simp [reduce_science_frame, inplaceBinop, hb, ht, hd, hf,
    shape_ewise, shape_scalarMul, premaskImg]

theorem reduce_err_bias (detect : Img → List (List Bool) × Img)
    (f1 f2 f3 f4 f5 : String) (sci bias flat dark : Img) (h : Header)
    (hb : bcastInto (shape sci) (shape bias) = false) :
    reduce_science_frame detect f1 f2 f3 f4 f5 sci bias flat dark h =
      ([], .error .valueError) := by
  simp [reduce_science_frame, inplaceBinop, hb]

theorem reduce_err_exptime (detect : Img → List (List Bool) × Img)
    (f1 f2 f3 f4 f5 : String) (sci bias flat dark : Img) (h : Header) (e : PyErr)
    (hb : bcastInto (shape sci) (shape bias) = true)
    (ht : getExptime h = .error e) :
    reduce_science_frame detect f1 f2 f3 f4 f5 sci bias flat dark h =
      ([.biasSub], .error e) := by
  simp [reduce_science_frame, inplaceBinop, hb, ht]

theorem reduce_err_dark (detect : Img → List (List Bool) × Img)
    (f1 f2 f3 f4 f5 : String) (sci bias flat dark : Img) (h : Header) (t : ℚ)
    (hb : bcastInto (shape sci) (shape bias) = true)
    (ht : getExptime h = .ok t)
    (hd : bcastInto (shape sci) (shape dark) = false) :
    reduce_science_frame detect f1 f2 f3 f4 f5 sci bias flat dark h =
      ([.biasSub, .exptimeRead, .darkScaled], .error .valueError) := by
  simp [reduce_science_frame, inplaceBinop, hb, ht, hd, shape_ewise, shape_scalarMul]

theorem reduce_err_flat (detect : Img → List (List Bool) × Img)
    (f1 f2 f3 f4 f5 : String) (sci bias flat dark : Img) (h : Header) (t : ℚ)
    (hb : bcastInto (shape sci) (shape bias) = true)
    (ht : getExptime h = .ok t)
    (hd : bcastInto (shape sci) (shape dark) = true)
    (hf : bcastInto (shape sci) (shape flat) = false) :
    reduce_science_frame detect f1 f2 f3 f4 f5 sci bias flat dark h =
      ([.biasSub, .exptimeRead, .darkScaled, .darkSub], .error .valueError) := by
  simp [reduce_science_frame, inplaceBinop, hb, ht, hd, hf, shape_ewise, shape_scalarMul]

theorem reduce_ok_inv (detect : Img → List (List Bool) × Img)
    (f1 f2 f3 f4 f5 : String) (sci bias flat dark : Img) (h : Header)
    (evs : List Ev) (r : ReduceResult)
    (hr : reduce_science_frame detect f1 f2 f3 f4 f5 sci bias flat dark h = (evs, .ok r)) :
    ∃ t, getExptime h = .ok t ∧
      bcastInto (shape sci) (shape bias) = true ∧
      bcastInto (shape sci) (shape dark) = true ∧
      bcastInto (shape sci) (shape flat) = true ∧
      evs = fullEvents ∧
      r = { premask := premaskImg sci bias flat dark t
            mask := (detect (premaskImg sci bias flat dark t)).1
            retVal := (detect (premaskImg sci bias flat dark t)).2
            written :=
              [HDU.primary (detect (premaskImg sci bias flat dark t)).2 (outHeader h f2 f3 f4),
               HDU.ext "COSMICRAY_MASK"
                 ((detect (premaskImg sci bias flat dark t)).1.map (List.map boolToUint8))] } := by
  cases hb : bcastInto (shape sci) (shape bias) with
  | false =>
    rw [reduce_err_bias detect f1 f2 f3 f4 f5 sci bias flat dark h hb] at hr
    simp at hr
  | true =>
    cases ht : getExptime h with
    | error e =>
      rw [reduce_err_exptime detect f1 f2 f3 f4 f5 sci bias flat dark h e hb ht] at hr
      simp at hr
    | ok t =>
      cases hd : bcastInto (shape sci) (shape dark) with
      | false =>
        rw [reduce_err_dark detect f1 f2 f3 f4 f5 sci bias flat dark h t hb ht hd] at hr
        simp at hr
      | true =>
        cases hf : bcastInto (shape sci) (shape flat) with
        | false =>
          rw [reduce_err_flat detect f1 f2 f3 f4 f5 sci bias flat dark h t hb ht hd hf] at hr
          simp at hr
        | true =>
          rw [reduce_ok_char detect f1 f2 f3 f4 f5 sci bias flat dark h t hb ht hd hf] at hr
          rw [Prod.mk.injEq] at hr
          refine ⟨t, rfl, rfl, rfl, rfl, hr.1.symm, ?_⟩
          have h2 := hr.2
          rw [Except.ok.injEq] at h2
          exact h2.symm

theorem getPix_premaskImg (sci bias flat dark : Img) (t : ℚ)
    (hb : shape bias = shape sci) (hd : shape dark = shape sci) (hf : shape flat = shape sci)
    (i j : ℕ) (hi : i < (shape sci).1) (hj : j < (shape sci).2) :
    getPix (premaskImg sci bias flat dark t) i j =
      (getPix sci i j - getPix bias i j - getPix dark i j * t) / getPix flat i j := by
  have hE1 : shape (ewise (fun x y => x - y) sci bias) = shape sci := shape_ewise _ _ _
  have hE2 : shape (ewise (fun x y => x - y) (ewise (fun x y => x - y) sci bias)
      (scalarMul dark t)) = shape sci := by
    rw [shape_ewise, shape_ewise]
  unfold premaskImg
  rw [getPix_ewise_eq _ _ _ (by rw [hE2, hf]) i j (by rw [hE2]; exact hi) (by rw [hE2]; exact hj)]
  rw [getPix_ewise_eq _ _ _ (by rw [hE1, shape_scalarMul, hd]) i j
    (by rw [hE1]; exact hi) (by rw [hE1]; exact hj)]
  rw [getPix_ewise_eq _ _ _ (by rw [hb]) i j hi hj]
  rw [getPix_scalarMul]

theorem rect_ewise (f : ℚ → ℚ → ℚ) (A B : Img) : rect (ewise f A B) = true := by
  rcases A with _ | ⟨hd, tl⟩
  · rfl
  · simp [rect, ewise, shape, List.range_succ_eq_map, List.all_eq_true]

theorem eq_of_getPix (A B : Img) (hs : shape B = shape A)
    (hrA : rect A = true) (hrB : rect B = true)
    (hpt : ∀ i j, i < (shape A).1 → j < (shape A).2 → getPix B i j = getPix A i j) :
    B = A := by
  have hlen : B.length = A.length := congrArg Prod.fst hs
  apply List.ext_getElem hlen
  intro i hiB hiA
  have hBrow : B[i].length = (shape B).2 := by
    have hmem := List.all_eq_true.mp hrB _ (List.getElem_mem hiB)
    have h' : B[i].length = (B.headD []).length := eq_of_beq hmem
    exact h'
  have hArow : A[i].length = (shape A).2 := by
    have hmem := List.all_eq_true.mp hrA _ (List.getElem_mem hiA)
    have h' : A[i].length = (A.headD []).length := eq_of_beq hmem
    exact h'
  have hrowlen : B[i].length = A[i].length := by rw [hBrow, hArow, hs]
  apply List.ext_getElem hrowlen
  intro j hjB hjA
  have hgB : getPix B i j = B[i][j] := by
    unfold getPix
    rw [List.getD_eq_getElem B [] hiB, List.getD_eq_getElem _ 0 hjB]
  have hgA : getPix A i j = A[i][j] := by
    unfold getPix
    rw [List.getD_eq_getElem A [] hiA, List.getD_eq_getElem _ 0 hjA]
  have hjbound : j < (shape A).2 := by rw [← hArow]; exact hjA
  rw [← hgB, ← hgA]
  exact hpt i j hiA hjbound

theorem shape_zeroImg (A : Img) : shape (zeroImg (shape A).1 (shape A).2) = shape A := by
  rcases A with _ | ⟨hd, tl⟩ <;> simp [zeroImg, shape, List.replicate_succ]

theorem shape_onesImg (A : Img) : shape (onesImg (shape A).1 (shape A).2) = shape A := by
  rcases A with _ | ⟨hd, tl⟩ <;> simp [onesImg, shape, List.replicate_succ]

theorem getD_replicate {α : Type} (n : ℕ) (a d : α) (i : ℕ) :
    (List.replicate n a).getD i d = if i < n then a else d := by
  rw [List.getD_eq_getElem?_getD, List.getElem?_replicate]
  split <;> rfl

theorem getPix_zeroImg (r c i j : ℕ) : getPix (zeroImg r c) i j = 0 := by
  unfold getPix zeroImg
  rw [getD_replicate]
  split
  · rw [getD_replicate]
    split <;> rfl
  · rfl

theorem getPix_onesImg (r c i j : ℕ) (hi : i < r) (hj : j < c) :
    getPix (onesImg r c) i j = 1 := by
  unfold getPix onesImg
  rw [getD_replicate, if_pos hi, getD_replicate, if_pos hj]

/-- Claim C1: for science, bias, dark and flat images of the same shape and
the science exposure time t read from the science header,
`reduce_science_frame` runs the pipeline events in source order (bias
subtraction, then exposure-scaled dark subtraction, then flat division,
then masking and writing) and the corrected-but-unmasked image equals
(S - B - D*t) / F elementwise. -/
theorem C1_premask_formula
    (detect : Img → List (List Bool) × Img)
    (f1 f2 f3 f4 f5 : String) (sci bias flat dark : Img) (h : Header) (t : ℚ)
    (hb : shape bias = shape sci) (hd : shape dark = shape sci)
    (hf : shape flat = shape sci) (ht : getExptime h = .ok t) :
    ∃ r : ReduceResult,
      reduce_science_frame detect f1 f2 f3 f4 f5 sci bias flat dark h = (fullEvents, .ok r) ∧
      ∀ i j, i < (shape sci).1 → j < (shape sci).2 →
        getPix r.premask i j =
          (getPix sci i j - getPix bias i j - getPix dark i j * t) / getPix flat i j := by
  refine ⟨_, reduce_ok_char detect f1 f2 f3 f4 f5 sci bias flat dark h t
    (bcastInto_of_eq hb) ht (bcastInto_of_eq hd) (bcastInto_of_eq hf), ?_⟩
  intro i j hi hj
  exact getPix_premaskImg sci bias flat dark t hb hd hf i j hi hj

/-- Witness for C1: a concrete 2x2 run with exposure time 3. -/
theorem C1_premask_formula_witness :
    ∃ r : ReduceResult,
      reduce_science_frame idDetector "sci.fits" "bias.fits" "flat.fits" "dark.fits"
          "reduced_science.fits"
          [[10, 20], [30, 40]] [[1, 1], [1, 1]] [[2, 2], [2, 2]] [[4, 4], [4, 4]]
          [⟨"EXPTIME", .num 3, none⟩] = (fullEvents, .ok r) ∧
      ∀ i j, i < (shape ([[10, 20], [30, 40]] : Img)).1 →
          j < (shape ([[10, 20], [30, 40]] : Img)).2 →
        getPix r.premask i j =
          (getPix [[10, 20], [30, 40]] i j - getPix [[1, 1], [1, 1]] i j -
            getPix [[4, 4], [4, 4]] i j * 3) / getPix [[2, 2], [2, 2]] i j :=
  C1_premask_formula idDetector "sci.fits" "bias.fits" "flat.fits" "dark.fits"
    "reduced_science.fits" [[10, 20], [30, 40]] [[1, 1], [1, 1]] [[2, 2], [2, 2]]
    [[4, 4], [4, 4]] [⟨"EXPTIME", .num 3, none⟩] 3 rfl rfl rfl (by decide)

/-- Claim C2: the scaled dark subtracted at exposure time 2t is elementwise
twice the scaled dark subtracted at exposure time t, and a run whose header
records exposure time 0 subtracts no dark at all: the corrected image is
(S - B) / F elementwise. -/
theorem C2_dark_scaling
    (detect : Img → List (List Bool) × Img)
    (f1 f2 f3 f4 f5 : String) (sci bias flat dark : Img) (h : Header) (t : ℚ)
    (hb : shape bias = shape sci) (hd : shape dark = shape sci)
    (hf : shape flat = shape sci) (ht0 : getExptime h = .ok 0) :
    scalarMul dark (2 * t) = scalarMul (scalarMul dark t) 2 ∧
    ∃ r : ReduceResult,
      reduce_science_frame detect f1 f2 f3 f4 f5 sci bias flat dark h = (fullEvents, .ok r) ∧
      ∀ i j, i < (shape sci).1 → j < (shape sci).2 →
        getPix r.premask i j =
          (getPix sci i j - getPix bias i j) / getPix flat i j := by
  constructor
  · have hfun : ∀ x : ℚ, x * (2 * t) = x * t * 2 := fun x => by ring
    simp [scalarMul, List.map_map, Function.comp_def, hfun]
  · refine ⟨_, reduce_ok_char detect f1 f2 f3 f4 f5 sci bias flat dark h 0
      (bcastInto_of_eq hb) ht0 (bcastInto_of_eq hd) (bcastInto_of_eq hf), ?_⟩
    intro i j hi hj
    have hp := getPix_premaskImg sci bias flat dark 0 hb hd hf i j hi hj
    simpa [mul_zero, sub_zero] using hp

/-- Witness for C2: a concrete 2x2 run whose header records exposure time 0,
with the doubling identity instantiated at t = 5. -/
theorem C2_dark_scaling_witness :
    scalarMul [[4, 4], [4, 4]] (2 * 5) = scalarMul (scalarMul [[4, 4], [4, 4]] 5) 2 ∧
    ∃ r : ReduceResult,
      reduce_science_frame idDetector "sci.fits" "bias.fits" "flat.fits" "dark.fits"
          "reduced_science.fits"
          [[10, 20], [30, 40]] [[1, 1], [1, 1]] [[2, 2], [2, 2]] [[4, 4], [4, 4]]
          [⟨"EXPTIME", .num 0, none⟩] = (fullEvents, .ok r) ∧
      ∀ i j, i < (shape ([[10, 20], [30, 40]] : Img)).1 →
          j < (shape ([[10, 20], [30, 40]] : Img)).2 →
        getPix r.premask i j =
          (getPix [[10, 20], [30, 40]] i j - getPix [[1, 1], [1, 1]] i j) /
            getPix [[2, 2], [2, 2]] i j :=
  C2_dark_scaling idDetector "sci.fits" "bias.fits" "flat.fits" "dark.fits"
    "reduced_science.fits" [[10, 20], [30, 40]] [[1, 1], [1, 1]] [[2, 2], [2, 2]]
    [[4, 4], [4, 4]] [⟨"EXPTIME", .num 0, none⟩] 5 rfl rfl rfl (by decide)

/-- Claim C3: with an all-zero bias, an all-zero dark and an all-one flat of
the science frame's shape, the corrected image before cosmic-ray masking is
the science image itself, as a structural (bit-for-bit) list equality. -/
theorem C3_identity_calibration
    (detect : Img → List (List Bool) × Img)
    (f1 f2 f3 f4 f5 : String) (sci : Img) (h : Header) (t : ℚ)
    (hrect : rect sci = true) (ht : getExptime h = .ok t) :
    ∃ r : ReduceResult,
      reduce_science_frame detect f1 f2 f3 f4 f5 sci
          (zeroImg (shape sci).1 (shape sci).2) (onesImg (shape sci).1 (shape sci).2)
          (zeroImg (shape sci).1 (shape sci).2) h = (fullEvents, .ok r) ∧
      r.premask = sci := by
  have hb : shape (zeroImg (shape sci).1 (shape sci).2) = shape sci := shape_zeroImg sci
  have hf : shape (onesImg (shape sci).1 (shape sci).2) = shape sci := shape_onesImg sci
  refine ⟨_, reduce_ok_char detect f1 f2 f3 f4 f5 sci _ _ _ h t
    (bcastInto_of_eq hb) ht (bcastInto_of_eq hb) (bcastInto_of_eq hf), ?_⟩
  show premaskImg sci (zeroImg (shape sci).1 (shape sci).2)
      (onesImg (shape sci).1 (shape sci).2) (zeroImg (shape sci).1 (shape sci).2) t = sci
  apply eq_of_getPix sci
  · unfold premaskImg
    rw [shape_ewise, shape_ewise, shape_ewise]
  · exact hrect
  · unfold premaskImg
    exact rect_ewise _ _ _
  · intro i j hi hj
    rw [getPix_premaskImg sci _ _ _ t hb hb hf i j hi hj, getPix_zeroImg,
      getPix_onesImg _ _ _ _ hi hj]
    simp

/-- Witness for C3: a concrete 2x2 science frame with identity calibration
frames and exposure time 7. -/
theorem C3_identity_calibration_witness :
    ∃ r : ReduceResult,
      reduce_science_frame idDetector "sci.fits" "bias.fits" "flat.fits" "dark.fits"
          "reduced_science.fits"
          [[10, 20], [30, 40]]
          (zeroImg (shape ([[10, 20], [30, 40]] : Img)).1 (shape ([[10, 20], [30, 40]] : Img)).2)
          (onesImg (shape ([[10, 20], [30, 40]] : Img)).1 (shape ([[10, 20], [30, 40]] : Img)).2)
          (zeroImg (shape ([[10, 20], [30, 40]] : Img)).1 (shape ([[10, 20], [30, 40]] : Img)).2)
          [⟨"EXPTIME", .num 7, none⟩] = (fullEvents, .ok r) ∧
      r.premask = [[10, 20], [30, 40]] :=
  C3_identity_calibration idDetector "sci.fits" "bias.fits" "flat.fits" "dark.fits"
    "reduced_science.fits" [[10, 20], [30, 40]] [⟨"EXPTIME", .num 7, none⟩] 7
    (by decide) (by decide)

/-- Counterexample to C4: a 1x2 bias frame differs in shape from the 2x2
science frame, yet the call succeeds — numpy silently broadcasts the bias
row over the science rows instead of raising. -/
theorem C4_counterexample :
    shape ([[1, 1]] : Img) ≠ shape ([[10, 20], [30, 40]] : Img) ∧
    exOk (reduce_science_frame idDetector "sci.fits" "bias.fits" "flat.fits" "dark.fits"
        "reduced_science.fits"
        [[10, 20], [30, 40]] [[1, 1]] [[2, 2], [2, 2]] [[4, 4], [4, 4]]
        [⟨"EXPTIME", .num 3, none⟩]).2 = true := by
  decide

/-- Claim C4 (amended): a calibration frame whose shape is not
broadcast-compatible into the science frame's shape makes the run fail
(numpy raises ValueError, the ShapeMismatchError equivalent); a differing
but broadcast-compatible shape (a dimension equal to 1) is instead silently
broadcast, as the counterexample shows. -/
theorem C4_shape_error
    (detect : Img → List (List Bool) × Img)
    (f1 f2 f3 f4 f5 : String) (sci bias flat dark : Img) (h : Header)
    (hbad : bcastInto (shape sci) (shape bias) = false ∨
            bcastInto (shape sci) (shape dark) = false ∨
            bcastInto (shape sci) (shape flat) = false) :
    exOk (reduce_science_frame detect f1 f2 f3 f4 f5 sci bias flat dark h).2 = false := by
  cases hb : bcastInto (shape sci) (shape bias) with
  | false =>
    rw [reduce_err_bias detect f1 f2 f3 f4 f5 sci bias flat dark h hb]
    rfl
  | true =>
    cases ht : getExptime h with
    | error e =>
      rw [reduce_err_exptime detect f1 f2 f3 f4 f5 sci bias flat dark h e hb ht]
      rfl
    | ok t =>
      cases hd : bcastInto (shape sci) (shape dark) with
      | false =>
        rw [reduce_err_dark detect f1 f2 f3 f4 f5 sci bias flat dark h t hb ht hd]
        rfl
      | true =>
        cases hf : bcastInto (shape sci) (shape flat) with
        | false =>
          rw [reduce_err_flat detect f1 f2 f3 f4 f5 sci bias flat dark h t hb ht hd hf]
          rfl
        | true =>
          rcases hbad with h1 | h1 | h1 <;> simp_all

/-- Witness for C4 (amended): a 2x3 flat frame is not broadcastable into the
2x2 science shape, and the run fails. -/
theorem C4_shape_error_witness :
    exOk (reduce_science_frame idDetector "sci.fits" "bias.fits" "flat.fits" "dark.fits"
        "reduced_science.fits"
        [[10, 20], [30, 40]] [[1, 1], [1, 1]] [[2, 2, 2], [2, 2, 2]] [[4, 4], [4, 4]]
        [⟨"EXPTIME", .num 3, none⟩]).2 = false :=
  C4_shape_error idDetector "sci.fits" "bias.fits" "flat.fits" "dark.fits"
    "reduced_science.fits" [[10, 20], [30, 40]] [[1, 1], [1, 1]] [[2, 2, 2], [2, 2, 2]]
    [[4, 4], [4, 4]] [⟨"EXPTIME", .num 3, none⟩] (Or.inr (Or.inr (by decide)))

/-- Counterexample to C5: with a science header lacking EXPTIME the run
fails with KeyError only after the bias-subtraction event has run, so the
failure is neither raised by the frame loader nor before all calibration
arithmetic. -/
theorem C5_counterexample :
    reduce_science_frame idDetector "sci.fits" "bias.fits" "flat.fits" "dark.fits"
        "reduced_science.fits"
        [[10, 20], [30, 40]] [[1, 1], [1, 1]] [[2, 2], [2, 2]] [[4, 4], [4, 4]]
        [⟨"OBJECT", .str "M42", none⟩] = ([Ev.biasSub], .error .keyError) ∧
    Ev.biasSub ∈ (reduce_science_frame idDetector "sci.fits" "bias.fits" "flat.fits"
        "dark.fits" "reduced_science.fits"
        [[10, 20], [30, 40]] [[1, 1], [1, 1]] [[2, 2], [2, 2]] [[4, 4], [4, 4]]
        [⟨"OBJECT", .str "M42", none⟩]).1 := by
  decide

/-- Claim C5 (amended): when the bias subtraction is shape-compatible and
the science header lacks the EXPTIME key, the run fails with KeyError (the
MissingMetadataError equivalent) at the exposure-time lookup of line 51 —
after the bias subtraction has already been performed, not in the loader —
and nothing further runs or is written. -/
theorem C5_missing_exptime
    (detect : Img → List (List Bool) × Img)
    (f1 f2 f3 f4 f5 : String) (sci bias flat dark : Img) (h : Header)
    (hb : bcastInto (shape sci) (shape bias) = true)
    (hx : findCard h "EXPTIME" = none) :
    reduce_science_frame detect f1 f2 f3 f4 f5 sci bias flat dark h =
      ([Ev.biasSub], .error .keyError) := by
  have ht : getExptime h = .error .keyError := by
    simp [getExptime, hx]
  exact reduce_err_exptime detect f1 f2 f3 f4 f5 sci bias flat dark h .keyError hb ht

/-- Witness for C5 (amended) at a concrete EXPTIME-free header. -/
theorem C5_missing_exptime_witness :
    reduce_science_frame idDetector "sci.fits" "bias.fits" "flat.fits" "dark.fits"
        "reduced_science.fits"
        [[10, 20], [30, 40]] [[1, 1], [1, 1]] [[2, 2], [2, 2]] [[4, 4], [4, 4]]
        [⟨"FILTER", .str "V", none⟩] = ([Ev.biasSub], .error .keyError) :=
  C5_missing_exptime idDetector "sci.fits" "bias.fits" "flat.fits" "dark.fits"
    "reduced_science.fits" [[10, 20], [30, 40]] [[1, 1], [1, 1]] [[2, 2], [2, 2]]
    [[4, 4], [4, 4]] [⟨"FILTER", .str "V", none⟩] (by decide) (by decide)

theorem find?_append_of_none {α : Type} {p : α → Bool} {l2 : List α}
    (h2 : l2.find? p = none) (l1 : List α) : (l1 ++ l2).find? p = l1.find? p := by
  induction l1 with
  | nil => simpa using h2
  | cons a t ih =>
    cases hpa : p a <;> simp [List.find?_cons, hpa, ih]

theorem hasKey_append (h l : Header) (k : String) :
    hasKey (h ++ l) k = (hasKey h k || hasKey l k) := by
  simp [hasKey, List.any_append]

theorem headerSet_commentary (h : Header) (v : HVal) (c : Option String) :
    headerSet h "COMMENT" v c = h ++ [⟨"COMMENT", v, c⟩] := by
  simp [headerSet, isCommentary]

theorem headerSet_fresh (h : Header) (k : String) (v : HVal) (c : Option String)
    (hk : hasKey h k = false) (hnc : isCommentary k = false) :
    headerSet h k v c = h ++ [⟨k, v, c⟩] := by
  simp [headerSet, hk, hnc]

theorem outHeader_fresh (h : Header) (f2 f3 f4 : String)
    (h1 : hasKey h "BIASFILE" = false) (h2 : hasKey h "DARKFILE" = false)
    (h3 : hasKey h "FLATFILE" = false) :
    outHeader h f2 f3 f4 = h ++
      [⟨"COMMENT", .str "Reduced science image", none⟩,
       ⟨"BIASFILE", .str f2, some "Bias image used to subtract bias level"⟩,
       ⟨"DARKFILE", .str f4, some "Dark image used to subtract dark current"⟩,
       ⟨"FLATFILE", .str f3, some "Flat image used for FPN correction"⟩] := by
  have hb : hasKey (h ++ [⟨"COMMENT", .str "Reduced science image", none⟩]) "BIASFILE"
      = false := by
    rw [hasKey_append, h1]
    rfl
  have hd : hasKey ((h ++ [⟨"COMMENT", .str "Reduced science image", none⟩]) ++
      [⟨"BIASFILE", .str f2, some "Bias image used to subtract bias level"⟩]) "DARKFILE"
      = false := by
    rw [hasKey_append, hasKey_append, h2]
    rfl
  have hf : hasKey (((h ++ [⟨"COMMENT", .str "Reduced science image", none⟩]) ++
      [⟨"BIASFILE", .str f2, some "Bias image used to subtract bias level"⟩]) ++
      [⟨"DARKFILE", .str f4, some "Dark image used to subtract dark current"⟩]) "FLATFILE"
      = false := by
    rw [hasKey_append, hasKey_append, hasKey_append, h3]
    rfl
  unfold outHeader
  rw [headerSet_commentary, headerSet_fresh _ "BIASFILE" _ _ hb (by decide),
    headerSet_fresh _ "DARKFILE" _ _ hd (by decide),
    headerSet_fresh _ "FLATFILE" _ _ hf (by decide)]
  simp

/-- Counterexample to C6: a science header that already contains a BIASFILE
card has that card updated in place by astropy item assignment, so the
output primary header is not the original header with the four provenance
entries appended. -/
theorem C6_counterexample :
    exOk (reduce_science_frame idDetector "sci.fits" "bias2.fits" "flat.fits" "dark.fits"
        "reduced_science.fits" [[4]] [[0]] [[1]] [[0]]
        [⟨"EXPTIME", .num 5, none⟩, ⟨"BIASFILE", .str "old.fits", none⟩]).2 = true ∧
    primaryHeaderOf (reduce_science_frame idDetector "sci.fits" "bias2.fits" "flat.fits"
        "dark.fits" "reduced_science.fits" [[4]] [[0]] [[1]] [[0]]
        [⟨"EXPTIME", .num 5, none⟩, ⟨"BIASFILE", .str "old.fits", none⟩]).2 ≠
      [⟨"EXPTIME", .num 5, none⟩, ⟨"BIASFILE", .str "old.fits", none⟩] ++
        [⟨"COMMENT", .str "Reduced science image", none⟩,
         ⟨"BIASFILE", .str "bias2.fits", some "Bias image used to subtract bias level"⟩,
         ⟨"DARKFILE", .str "dark.fits", some "Dark image used to subtract dark current"⟩,
         ⟨"FLATFILE", .str "flat.fits", some "Flat image used for FPN correction"⟩] := by
  decide

/-- Claim C6 (amended): on a successful run whose science header contains
none of the keys BIASFILE, DARKFILE and FLATFILE, the output primary header
is the science header with exactly the four provenance entries appended in
order — COMMENT "Reduced science image", then BIASFILE, DARKFILE and
FLATFILE carrying the input file identifiers and their fixed comments — and
the EXPTIME lookup is preserved unchanged.  A provenance key already
present in the science header is instead updated in place (see the
counterexample). -/
theorem C6_header_provenance
    (detect : Img → List (List Bool) × Img)
    (f1 f2 f3 f4 f5 : String) (sci bias flat dark : Img) (h : Header)
    (evs : List Ev) (r : ReduceResult)
    (h1 : hasKey h "BIASFILE" = false) (h2 : hasKey h "DARKFILE" = false)
    (h3 : hasKey h "FLATFILE" = false)
    (hr : reduce_science_frame detect f1 f2 f3 f4 f5 sci bias flat dark h = (evs, .ok r)) :
    primaryHeaderOf (.ok r) = h ++
      [⟨"COMMENT", .str "Reduced science image", none⟩,
       ⟨"BIASFILE", .str f2, some "Bias image used to subtract bias level"⟩,
       ⟨"DARKFILE", .str f4, some "Dark image used to subtract dark current"⟩,
       ⟨"FLATFILE", .str f3, some "Flat image used for FPN correction"⟩] ∧
    findCard (primaryHeaderOf (.ok r)) "EXPTIME" = findCard h "EXPTIME" := by
  obtain ⟨t, ht, hcb, hcd, hcf, hevs, hrr⟩ :=
    reduce_ok_inv detect f1 f2 f3 f4 f5 sci bias flat dark h evs r hr
  subst hrr
  have hout := outHeader_fresh h f2 f3 f4 h1 h2 h3
  have hph : primaryHeaderOf (.ok
      { premask := premaskImg sci bias flat dark t
        mask := (detect (premaskImg sci bias flat dark t)).1
        retVal := (detect (premaskImg sci bias flat dark t)).2
        written :=
          [HDU.primary (detect (premaskImg sci bias flat dark t)).2 (outHeader h f2 f3 f4),
           HDU.ext "COSMICRAY_MASK"
             ((detect (premaskImg sci bias flat dark t)).1.map (List.map boolToUint8))] } :
      Except PyErr ReduceResult) = outHeader h f2 f3 f4 := rfl
  rw [hph, hout]
  refine ⟨rfl, ?_⟩
  have hnone : List.find? (fun c => c.key == "EXPTIME")
      ([⟨"COMMENT", .str "Reduced science image", none⟩,
        ⟨"BIASFILE", .str f2, some "Bias image used to subtract bias level"⟩,
        ⟨"DARKFILE", .str f4, some "Dark image used to subtract dark current"⟩,
        ⟨"FLATFILE", .str f3, some "Flat image used for FPN correction"⟩] : Header) = none := rfl
  exact find?_append_of_none hnone h

/-- Witness for C6 (amended): a concrete 1x1 run with a fresh header; the
output header is the original plus the four appended provenance cards. -/
theorem C6_header_provenance_witness :
    primaryHeaderOf (.ok
      { premask := premaskImg [[4]] [[0]] [[1]] [[0]] 5
        mask := (idDetector (premaskImg [[4]] [[0]] [[1]] [[0]] 5)).1
        retVal := (idDetector (premaskImg [[4]] [[0]] [[1]] [[0]] 5)).2
        written :=
          [HDU.primary (idDetector (premaskImg [[4]] [[0]] [[1]] [[0]] 5)).2
             (outHeader [⟨"EXPTIME", .num 5, none⟩] "bias.fits" "flat.fits" "dark.fits"),
           HDU.ext "COSMICRAY_MASK"
             ((idDetector (premaskImg [[4]] [[0]] [[1]] [[0]] 5)).1.map
               (List.map boolToUint8))] } : Except PyErr ReduceResult) =
      [⟨"EXPTIME", .num 5, none⟩] ++
        [⟨"COMMENT", .str "Reduced science image", none⟩,
         ⟨"BIASFILE", .str "bias.fits", some "Bias image used to subtract bias level"⟩,
         ⟨"DARKFILE", .str "dark.fits", some "Dark image used to subtract dark current"⟩,
         ⟨"FLATFILE", .str "flat.fits", some "Flat image used for FPN correction"⟩] ∧
    findCard (primaryHeaderOf (.ok
      { premask := premaskImg [[4]] [[0]] [[1]] [[0]] 5
        mask := (idDetector (premaskImg [[4]] [[0]] [[1]] [[0]] 5)).1
        retVal := (idDetector (premaskImg [[4]] [[0]] [[1]] [[0]] 5)).2
        written :=
          [HDU.primary (idDetector (premaskImg [[4]] [[0]] [[1]] [[0]] 5)).2
             (outHeader [⟨"EXPTIME", .num 5, none⟩] "bias.fits" "flat.fits" "dark.fits"),
           HDU.ext "COSMICRAY_MASK"
             ((idDetector (premaskImg [[4]] [[0]] [[1]] [[0]] 5)).1.map
               (List.map boolToUint8))] } : Except PyErr ReduceResult)) "EXPTIME" =
      findCard [⟨"EXPTIME", .num 5, none⟩] "EXPTIME" :=
  C6_header_provenance idDetector "sci.fits" "bias.fits" "flat.fits" "dark.fits"
    "reduced_science.fits" [[4]] [[0]] [[1]] [[0]] [⟨"EXPTIME", .num 5, none⟩]
    fullEvents _ (by decide) (by decide) (by decide)
    (reduce_ok_char idDetector "sci.fits" "bias.fits" "flat.fits" "dark.fits"
      "reduced_science.fits" [[4]] [[0]] [[1]] [[0]] [⟨"EXPTIME", .num 5, none⟩] 5
      (by decide) rfl (by decide) (by decide))

theorem shape_map_map {α β : Type} (g : α → β) (A : List (List α)) :
    shape (A.map (List.map g)) = shape A := by
  rcases A with _ | ⟨hd, tl⟩ <;> simp [shape]

theorem idDetector_shape (A : Img) :
    shape (idDetector A).1 = shape A ∧ shape (idDetector A).2 = shape A :=
  ⟨shape_map_map _ A, rfl⟩

/-- Claim C7: on every successful run with a shape-preserving cosmic-ray
detector, the recorded output file has exactly two planes in fixed order: a
primary plane whose pixel data is the image returned to the caller, and an
extension named COSMICRAY_MASK whose entries are uint8 values (all below
256, in fact 0 or 1) and whose shape equals the primary plane's shape. -/
theorem C7_round_trip
    (detect : Img → List (List Bool) × Img)
    (f1 f2 f3 f4 f5 : String) (sci bias flat dark : Img) (h : Header)
    (evs : List Ev) (r : ReduceResult)
    (hshape : ∀ A : Img, shape (detect A).1 = shape A ∧ shape (detect A).2 = shape A)
    (hr : reduce_science_frame detect f1 f2 f3 f4 f5 sci bias flat dark h = (evs, .ok r)) :
    ∃ hd m, r.written = [HDU.primary r.retVal hd, HDU.ext "COSMICRAY_MASK" m] ∧
      shape m = shape r.retVal ∧
      ∀ row ∈ m, ∀ v ∈ row, v < 256 := by
  obtain ⟨t, ht, hcb, hcd, hcf, hevs, hrr⟩ :=
    reduce_ok_inv detect f1 f2 f3 f4 f5 sci bias flat dark h evs r hr
  subst hrr
  refine ⟨outHeader h f2 f3 f4, _, rfl, ?_, ?_⟩
  · rw [shape_map_map]
    rw [(hshape (premaskImg sci bias flat dark t)).1,
      (hshape (premaskImg sci bias flat dark t)).2]
  · intro row hrow v hv
    obtain ⟨brow, _, hbrow⟩ := List.mem_map.mp hrow
    subst hbrow
    obtain ⟨b, _, hb⟩ := List.mem_map.mp hv
    rw [← hb]
    cases b <;> decide

/-- Witness for C7: a concrete 1x1 run with the identity detector. -/
theorem C7_round_trip_witness :
    ∃ hd m,
      (ReduceResult.written
        { premask := premaskImg [[4]] [[0]] [[1]] [[0]] 5
          mask := (idDetector (premaskImg [[4]] [[0]] [[1]] [[0]] 5)).1
          retVal := (idDetector (premaskImg [[4]] [[0]] [[1]] [[0]] 5)).2
          written :=
            [HDU.primary (idDetector (premaskImg [[4]] [[0]] [[1]] [[0]] 5)).2
               (outHeader [⟨"EXPTIME", .num 5, none⟩] "bias.fits" "flat.fits" "dark.fits"),
             HDU.ext "COSMICRAY_MASK"
               ((idDetector (premaskImg [[4]] [[0]] [[1]] [[0]] 5)).1.map
                 (List.map boolToUint8))] }) =
        [HDU.primary
          (ReduceResult.retVal
            { premask := premaskImg [[4]] [[0]] [[1]] [[0]] 5
              mask := (idDetector (premaskImg [[4]] [[0]] [[1]] [[0]] 5)).1
              retVal := (idDetector (premaskImg [[4]] [[0]] [[1]] [[0]] 5)).2
              written :=
                [HDU.primary (idDetector (premaskImg [[4]] [[0]] [[1]] [[0]] 5)).2
                   (outHeader [⟨"EXPTIME", .num 5, none⟩] "bias.fits" "flat.fits" "dark.fits"),
                 HDU.ext "COSMICRAY_MASK"
                   ((idDetector (premaskImg [[4]] [[0]] [[1]] [[0]] 5)).1.map
                     (List.map boolToUint8))] }) hd,
         HDU.ext "COSMICRAY_MASK" m] ∧
      shape m = shape
        (ReduceResult.retVal
          { premask := premaskImg [[4]] [[0]] [[1]] [[0]] 5
            mask := (idDetector (premaskImg [[4]] [[0]] [[1]] [[0]] 5)).1
            retVal := (idDetector (premaskImg [[4]] [[0]] [[1]] [[0]] 5)).2
            written :=
              [HDU.primary (idDetector (premaskImg [[4]] [[0]] [[1]] [[0]] 5)).2
                 (outHeader [⟨"EXPTIME", .num 5, none⟩] "bias.fits" "flat.fits" "dark.fits"),
               HDU.ext "COSMICRAY_MASK"
                 ((idDetector (premaskImg [[4]] [[0]] [[1]] [[0]] 5)).1.map
                   (List.map boolToUint8))] }) ∧
      ∀ row ∈ m, ∀ v ∈ row, v < 256 :=
  C7_round_trip idDetector "sci.fits" "bias.fits" "flat.fits" "dark.fits"
    "reduced_science.fits" [[4]] [[0]] [[1]] [[0]] [⟨"EXPTIME", .num 5, none⟩]
    fullEvents _ idDetector_shape
    (reduce_ok_char idDetector "sci.fits" "bias.fits" "flat.fits" "dark.fits"
      "reduced_science.fits" [[4]] [[0]] [[1]] [[0]] [⟨"EXPTIME", .num 5, none⟩] 5
      (by decide) rfl (by decide) (by decide))

/-- Claim C8: every run either succeeds — the write event is in its trace
exactly when the outcome is a success — and then the result records a
complete two-plane file, or it fails at the first failing step with no
write event in its trace: packaging is the sole point of persistence and
runs only after all prior steps succeed. -/
theorem C8_atomicity
    (detect : Img → List (List Bool) × Img)
    (f1 f2 f3 f4 f5 : String) (sci bias flat dark : Img) (h : Header) :
    (Ev.write ∈ (reduce_science_frame detect f1 f2 f3 f4 f5 sci bias flat dark h).1 ↔
      ∃ r, (reduce_science_frame detect f1 f2 f3 f4 f5 sci bias flat dark h).2 = .ok r) ∧
    (∀ evs r, reduce_science_frame detect f1 f2 f3 f4 f5 sci bias flat dark h = (evs, .ok r) →
      ∃ hd m, r.written = [HDU.primary r.retVal hd, HDU.ext "COSMICRAY_MASK" m]) := by
  constructor
  · cases hb : bcastInto (shape sci) (shape bias) with
    | false =>
      rw [reduce_err_bias detect f1 f2 f3 f4 f5 sci bias flat dark h hb]
      simp
    | true =>
      cases ht : getExptime h with
      | error e =>
        rw [reduce_err_exptime detect f1 f2 f3 f4 f5 sci bias flat dark h e hb ht]
        simp
      | ok t =>
        cases hd : bcastInto (shape sci) (shape dark) with
        | false =>
          rw [reduce_err_dark detect f1 f2 f3 f4 f5 sci bias flat dark h t hb ht hd]
          simp
        | true =>
          cases hf : bcastInto (shape sci) (shape flat) with
          | false =>
            rw [reduce_err_flat detect f1 f2 f3 f4 f5 sci bias flat dark h t hb ht hd hf]
            simp
          | true =>
            rw [reduce_ok_char detect f1 f2 f3 f4 f5 sci bias flat dark h t hb ht hd hf]
            simp [fullEvents]
  · intro evs r hr
    obtain ⟨t, ht, hcb, hcd, hcf, hevs, hrr⟩ :=
      reduce_ok_inv detect f1 f2 f3 f4 f5 sci bias flat dark h evs r hr
    subst hrr
    exact ⟨outHeader h f2 f3 f4, _, rfl⟩

/-- Witness for C8 at a concrete run (the statement instantiated, including
its inner implications, at a 2x2 input). -/
theorem C8_atomicity_witness :
    (Ev.write ∈ (reduce_science_frame idDetector "sci.fits" "bias.fits" "flat.fits"
        "dark.fits" "reduced_science.fits"
        [[10, 20], [30, 40]] [[1, 1], [1, 1]] [[2, 2], [2, 2]] [[4, 4], [4, 4]]
        [⟨"EXPTIME", .num 3, none⟩]).1 ↔
      ∃ r, (reduce_science_frame idDetector "sci.fits" "bias.fits" "flat.fits"
        "dark.fits" "reduced_science.fits"
        [[10, 20], [30, 40]] [[1, 1], [1, 1]] [[2, 2], [2, 2]] [[4, 4], [4, 4]]
        [⟨"EXPTIME", .num 3, none⟩]).2 = .ok r) ∧
    (∀ evs r, reduce_science_frame idDetector "sci.fits" "bias.fits" "flat.fits"
        "dark.fits" "reduced_science.fits"
        [[10, 20], [30, 40]] [[1, 1], [1, 1]] [[2, 2], [2, 2]] [[4, 4], [4, 4]]
        [⟨"EXPTIME", .num 3, none⟩] = (evs, .ok r) →
      ∃ hd m, r.written = [HDU.primary r.retVal hd, HDU.ext "COSMICRAY_MASK" m]) :=
  C8_atomicity idDetector "sci.fits" "bias.fits" "flat.fits" "dark.fits"
    "reduced_science.fits" [[10, 20], [30, 40]] [[1, 1], [1, 1]] [[2, 2], [2, 2]]
    [[4, 4], [4, 4]] [⟨"EXPTIME", .num 3, none⟩]

/-- Claim C9: cosmic-ray masking runs on every successful call (the masking
event is always in the trace and the signature offers no way to skip it),
the image returned to the caller is the detector's cleaned output on the
corrected image — not the unmasked corrected image itself — and the outcome
does not depend on the output-file path argument. -/
theorem C9_mask_always
    (detect : Img → List (List Bool) × Img)
    (f1 f2 f3 f4 f5 : String) (sci bias flat dark : Img) (h : Header)
    (evs : List Ev) (r : ReduceResult)
    (hr : reduce_science_frame detect f1 f2 f3 f4 f5 sci bias flat dark h = (evs, .ok r)) :
    r.retVal = (detect r.premask).2 ∧ Ev.cosmics ∈ evs ∧
    ∀ f5x : String, reduce_science_frame detect f1 f2 f3 f4 f5x sci bias flat dark h =
      reduce_science_frame detect f1 f2 f3 f4 f5 sci bias flat dark h := by
  obtain ⟨t, ht, hcb, hcd, hcf, hevs, hrr⟩ :=
    reduce_ok_inv detect f1 f2 f3 f4 f5 sci bias flat dark h evs r hr
  subst hrr
  subst hevs
  exact ⟨rfl, by decide, fun f5x => rfl⟩

/-- Witness for C9: a concrete 1x1 run via the success characterization. -/
theorem C9_mask_always_witness :
    (ReduceResult.retVal
      { premask := premaskImg [[4]] [[0]] [[1]] [[0]] 5
        mask := (idDetector (premaskImg [[4]] [[0]] [[1]] [[0]] 5)).1
        retVal := (idDetector (premaskImg [[4]] [[0]] [[1]] [[0]] 5)).2
        written :=
          [HDU.primary (idDetector (premaskImg [[4]] [[0]] [[1]] [[0]] 5)).2
             (outHeader [⟨"EXPTIME", .num 5, none⟩] "bias.fits" "flat.fits" "dark.fits"),
           HDU.ext "COSMICRAY_MASK"
             ((idDetector (premaskImg [[4]] [[0]] [[1]] [[0]] 5)).1.map
               (List.map boolToUint8))] }) =
      (idDetector (ReduceResult.premask
        { premask := premaskImg [[4]] [[0]] [[1]] [[0]] 5
          mask := (idDetector (premaskImg [[4]] [[0]] [[1]] [[0]] 5)).1
          retVal := (idDetector (premaskImg [[4]] [[0]] [[1]] [[0]] 5)).2
          written :=
            [HDU.primary (idDetector (premaskImg [[4]] [[0]] [[1]] [[0]] 5)).2
               (outHeader [⟨"EXPTIME", .num 5, none⟩] "bias.fits" "flat.fits" "dark.fits"),
             HDU.ext "COSMICRAY_MASK"
               ((idDetector (premaskImg [[4]] [[0]] [[1]] [[0]] 5)).1.map
                 (List.map boolToUint8))] })).2 ∧
    Ev.cosmics ∈ fullEvents ∧
    ∀ f5x : String, reduce_science_frame idDetector "sci.fits" "bias.fits" "flat.fits"
        "dark.fits" f5x [[4]] [[0]] [[1]] [[0]] [⟨"EXPTIME", .num 5, none⟩] =
      reduce_science_frame idDetector "sci.fits" "bias.fits" "flat.fits" "dark.fits"
        "reduced_science.fits" [[4]] [[0]] [[1]] [[0]] [⟨"EXPTIME", .num 5, none⟩] :=
  C9_mask_always idDetector "sci.fits" "bias.fits" "flat.fits" "dark.fits"
    "reduced_science.fits" [[4]] [[0]] [[1]] [[0]] [⟨"EXPTIME", .num 5, none⟩]
    fullEvents _
    (reduce_ok_char idDetector "sci.fits" "bias.fits" "flat.fits" "dark.fits"
      "reduced_science.fits" [[4]] [[0]] [[1]] [[0]] [⟨"EXPTIME", .num 5, none⟩] 5
      (by decide) rfl (by decide) (by decide))

/-- Claim C10: the exposure time read from the header is not validated: for
every rational t recorded in EXPTIME — including t = 0 and t < 0 — the run
raises no error and applies the same formula (S - B - D*t) / F. -/
theorem C10_no_exptime_validation
    (detect : Img → List (List Bool) × Img)
    (f1 f2 f3 f4 f5 : String) (sci bias flat dark : Img) (h : Header) (t : ℚ)
    (hb : shape bias = shape sci) (hd : shape dark = shape sci)
    (hf : shape flat = shape sci) (ht : getExptime h = .ok t) :
    exOk (reduce_science_frame detect f1 f2 f3 f4 f5 sci bias flat dark h).2 = true ∧
    ∃ r : ReduceResult,
      reduce_science_frame detect f1 f2 f3 f4 f5 sci bias flat dark h = (fullEvents, .ok r) ∧
      ∀ i j, i < (shape sci).1 → j < (shape sci).2 →
        getPix r.premask i j =
          (getPix sci i j - getPix bias i j - getPix dark i j * t) / getPix flat i j := by
  have hchar := reduce_ok_char detect f1 f2 f3 f4 f5 sci bias flat dark h t
    (bcastInto_of_eq hb) ht (bcastInto_of_eq hd) (bcastInto_of_eq hf)
  refine ⟨?_, _, hchar, fun i j hi hj => getPix_premaskImg sci bias flat dark t hb hd hf i j hi hj⟩
  rw [hchar]
  rfl

/-- Witness for C10 at the negative exposure time t = -2. -/
theorem C10_no_exptime_validation_witness :
    exOk (reduce_science_frame idDetector "sci.fits" "bias.fits" "flat.fits" "dark.fits"
        "reduced_science.fits"
        [[10, 20], [30, 40]] [[1, 1], [1, 1]] [[2, 2], [2, 2]] [[4, 4], [4, 4]]
        [⟨"EXPTIME", .num (-2), none⟩]).2 = true ∧
    ∃ r : ReduceResult,
      reduce_science_frame idDetector "sci.fits" "bias.fits" "flat.fits" "dark.fits"
          "reduced_science.fits"
          [[10, 20], [30, 40]] [[1, 1], [1, 1]] [[2, 2], [2, 2]] [[4, 4], [4, 4]]
          [⟨"EXPTIME", .num (-2), none⟩] = (fullEvents, .ok r) ∧
      ∀ i j, i < (shape ([[10, 20], [30, 40]] : Img)).1 →
          j < (shape ([[10, 20], [30, 40]] : Img)).2 →
        getPix r.premask i j =
          (getPix [[10, 20], [30, 40]] i j - getPix [[1, 1], [1, 1]] i j -
            getPix [[4, 4], [4, 4]] i j * (-2)) / getPix [[2, 2], [2, 2]] i j :=
  C10_no_exptime_validation idDetector "sci.fits" "bias.fits" "flat.fits" "dark.fits"
    "reduced_science.fits" [[10, 20], [30, 40]] [[1, 1], [1, 1]] [[2, 2], [2, 2]]
    [[4, 4], [4, 4]] [⟨"EXPTIME", .num (-2), none⟩] (-2) rfl rfl rfl rfl

end CCD
